import Mathlib

/-!
Verification of the Black-Scholes vanilla option module
(`torch_qf/options/black-scholes/vanilla_option.py`).

The two Python entry points `get_vanilla_prices` and `get_vanilla_greeks`
operate elementwise over equal-length batches, so they are embedded per batch
element: every tensor becomes one real number and every optional batch
argument becomes an `Option ℝ`.  Raised Python exceptions (the explicit
`ValueError`s as well as the interpreter-level `UnboundLocalError` /
`TypeError` the source can hit) are modelled as `Except.error` with a message
identifying the exception; a normal `return` is `Except.ok`.

A Python local that is only assigned on some paths is modelled as an
`Option ℝ` holding `none` when the local is left unbound; using the local
while unbound produces the `UnboundLocalError` the interpreter would raise.

The `is_call_options` argument is an arbitrary Python value compared with the
literals `True` and `False`; it is modelled by the three-valued `CallFlag`
(`pyTrue` / `pyFalse` / values equal to neither).
-/

open MeasureTheory

noncomputable section

namespace TorchQF

/-- Module-level constant from the source: `pi = 3.14159265359`
(the source does not use `math.pi`). -/
def pi : ℝ := 3.14159265359

/-- Standard normal cumulative distribution function, the model of
`scipy.stats.norm.cdf` (an external dependency the spec assumes correct). -/
def normCdf (x : ℝ) : ℝ :=
  (∫ t in Set.Iic x, Real.exp (-(t ^ 2) / 2)) / Real.sqrt (2 * Real.pi)

/-- Model of the Python `is_call_options` argument: the source compares it
with the literals `True` and `False`, so only three classes of values are
distinguishable — `True`, `False`, and everything equal to neither. -/
inductive CallFlag
  | pyTrue
  | pyFalse
  | other

/-- Shallow embedding of `get_vanilla_prices`, per batch element.
Mirrors the source line by line, including its slips: `t_continuous_dividends`
is only assigned when the `continuous_dividends` argument is absent; in the
`forwards` branch the line `t_spots * torch.exp(-t_cost_of_carries *
t_expiries)` discards its value and reads the unbound local `t_spots`; the
put branch multiplies by the raw `discount_factors` argument instead of the
resolved `t_discount_factors`. -/
def get_vanilla_prices (strikes volatilities expiries : ℝ)
    (spots forwards discount_rates continuous_dividends cost_of_carries
      discount_factors : Option ℝ)
    (is_call_options : CallFlag) : Except String ℝ :=
  if spots.isNone = forwards.isNone then
    Except.error ("Either spots or forwards must be supplied but not both.")
  else if discount_rates.isSome ∧ discount_factors.isSome then
    Except.error ("At most one of discount_rates and discount_factors may be supplied")
  else if continuous_dividends.isSome ∧ cost_of_carries.isSome then
    Except.error ("At most one of continuous_dividends and cost_of_carries may be supplied")
  else
    let t_strikes := strikes
    let t_volatilities := volatilities
    let t_expiries := expiries
    let t_discount_rates :=
      match discount_rates, discount_factors with
      | some r, _ => r
      | none, some f => -Real.log f / expiries
      | none, none => (0 : ℝ)
    -- the source only assigns this local when the argument is absent;
    -- `none` models the local being left unbound
    let t_continuous_dividends : Option ℝ :=
      if continuous_dividends.isNone then some 0 else none
    match (match cost_of_carries with
           | some c => Except.ok c
           | none =>
             match t_continuous_dividends with
             | some d => Except.ok (t_discount_rates - d)
             | none =>
               Except.error
                 ("UnboundLocalError: local variable t_continuous_dividends referenced before assignment")) with
    | Except.error e => Except.error e
    | Except.ok t_cost_of_carries =>
      let t_discount_factors :=
        match discount_factors with
        | some f => f
        | none => Real.exp (-t_discount_rates * t_expiries)
      match forwards with
      | some _ =>
        -- source: `t_spots * torch.exp(-t_cost_of_carries * t_expiries)` —
        -- the product is not assigned and `t_spots` is unbound here
        Except.error ("UnboundLocalError: local variable t_spots referenced before assignment")
      | none =>
        match spots with
        | none =>
          -- unreachable: the exclusivity check above guarantees spots is present
          Except.error ("Either spots or forwards must be supplied but not both.")
        | some s =>
          let t_spots := s
          let t_forwards := t_spots * Real.exp (t_cost_of_carries * t_expiries)
          let t_sqrt_var := t_volatilities * Real.sqrt t_expiries
          let d1 := (Real.log (t_forwards / t_strikes) + t_sqrt_var * t_sqrt_var / 2) / t_sqrt_var
          let d2 := d1 - t_sqrt_var
          let t_undiscounted_calls := t_forwards * normCdf d1 - t_strikes * normCdf d2
          match is_call_options with
          | CallFlag.pyTrue => Except.ok (t_discount_factors * t_undiscounted_calls)
          | _ =>
            -- Python: any value not equal to True takes the put branch
            let t_undiscounted_forward := t_forwards - t_strikes
            let t_undiscounted_puts := t_undiscounted_calls - t_undiscounted_forward
            -- source: `return discount_factors * t_undiscounted_puts` —
            -- the raw argument, not the resolved t_discount_factors
            match discount_factors with
            | some f => Except.ok (f * t_undiscounted_puts)
            | none =>
              Except.error ("TypeError: unsupported operand type for *: NoneType and Tensor")

/-- Shallow embedding of `get_vanilla_greeks`, per batch element.  The
normalizer portion is the same as in `get_vanilla_prices` except that the
`forwards` branch correctly assigns `t_spots`.  The dispatch mirrors the two
`if` blocks on `is_call_options`: values equal to neither `True` nor `False`
reach the trailing `else: raise`. -/
def get_vanilla_greeks (strikes volatilities expiries : ℝ) (greek : String)
    (spots forwards discount_rates continuous_dividends cost_of_carries
      discount_factors : Option ℝ)
    (is_call_options : CallFlag) : Except String ℝ :=
  if greek ∉ (["delta", "gamma", "theta", "vega", "rho"] : List String) then
    Except.error ("Input greek should be one of delta, gamma, theta, vega, rho")
  else if spots.isNone = forwards.isNone then
    Except.error ("Either spots or forwards must be supplied but not both.")
  else if discount_rates.isSome ∧ discount_factors.isSome then
    Except.error ("At most one of discount_rates and discount_factors may be supplied")
  else if continuous_dividends.isSome ∧ cost_of_carries.isSome then
    Except.error ("At most one of continuous_dividends and cost_of_carries may be supplied")
  else
    let t_strikes := strikes
    let t_volatilities := volatilities
    let t_expiries := expiries
    let t_discount_rates :=
      match discount_rates, discount_factors with
      | some r, _ => r
      | none, some f => -Real.log f / expiries
      | none, none => (0 : ℝ)
    -- the source only assigns this local when the argument is absent
    let t_continuous_dividends : Option ℝ :=
      if continuous_dividends.isNone then some 0 else none
    match (match cost_of_carries with
           | some c => Except.ok c
           | none =>
             match t_continuous_dividends with
             | some d => Except.ok (t_discount_rates - d)
             | none =>
               Except.error
                 ("UnboundLocalError: local variable t_continuous_dividends referenced before assignment")) with
    | Except.error e => Except.error e
    | Except.ok t_cost_of_carries =>
      match (match forwards, spots with
             | some f, _ =>
               Except.ok (f * Real.exp (-t_cost_of_carries * t_expiries), f)
             | none, some s =>
               Except.ok (s, s * Real.exp (t_cost_of_carries * t_expiries))
             | none, none =>
               -- unreachable: the exclusivity check above rules this out
               Except.error ("Either spots or forwards must be supplied but not both.")) with
      | Except.error e => Except.error e
      | Except.ok (t_spots, t_forwards) =>
        match is_call_options with
        | CallFlag.pyTrue =>
          if greek = "delta" then
            let t_sqrt_var := t_volatilities * Real.sqrt t_expiries
            let d1 := (Real.log (t_forwards / t_strikes) + t_sqrt_var * t_sqrt_var / 2) / t_sqrt_var
            Except.ok (normCdf d1)
          else if greek = "gamma" then
            let t_sqrt_var := t_volatilities * Real.sqrt t_expiries
            let d1 := (Real.log (t_forwards / t_strikes) + t_sqrt_var * t_sqrt_var / 2) / t_sqrt_var
            Except.ok (Real.exp (-(d1 ^ 2) / 2) /
              (Real.sqrt (2 * pi * t_expiries) * t_spots * t_volatilities))
          else if greek = "theta" then
            let t_sqrt_var := t_volatilities * Real.sqrt t_expiries
            let d1 := (Real.log (t_forwards / t_strikes) + t_sqrt_var * t_sqrt_var / 2) / t_sqrt_var
            let d2 := d1 - t_sqrt_var
            Except.ok (t_spots * t_volatilities * Real.exp (-(d1 ^ 2) / 2) /
                Real.sqrt (2 * pi * t_expiries)
              - t_cost_of_carries * t_strikes * Real.exp (-t_cost_of_carries * t_expiries) *
                normCdf d2)
          else if greek = "vega" then
            let t_sqrt_var := t_volatilities * Real.sqrt t_expiries
            let d1 := (Real.log (t_forwards / t_strikes) + t_sqrt_var * t_sqrt_var / 2) / t_sqrt_var
            Except.ok (t_spots * Real.sqrt t_expiries * Real.exp (-(d1 ^ 2) / 2))
          else if greek = "rho" then
            let t_sqrt_var := t_volatilities * Real.sqrt t_expiries
            let d1 := (Real.log (t_forwards / t_strikes) + t_sqrt_var * t_sqrt_var / 2) / t_sqrt_var
            let d2 := d1 - t_sqrt_var
            Except.ok (t_strikes * t_expiries * Real.exp (-t_cost_of_carries * t_expiries) *
              normCdf d2)
          else
            -- unreachable once the selector check passed: control would fall
            -- to the second flag test, whose else-branch raises
            Except.error ("Variable is_call_options can only be Booleans")
        | CallFlag.pyFalse =>
          if greek = "delta" then
            let t_sqrt_var := t_volatilities * Real.sqrt t_expiries
            let d1 := (Real.log (t_forwards / t_strikes) + t_sqrt_var * t_sqrt_var / 2) / t_sqrt_var
            Except.ok (normCdf d1 - 1)
          else if greek = "gamma" then
            let t_sqrt_var := t_volatilities * Real.sqrt t_expiries
            let d1 := (Real.log (t_forwards / t_strikes) + t_sqrt_var * t_sqrt_var / 2) / t_sqrt_var
            Except.ok (Real.exp (-(d1 ^ 2) / 2) /
              (Real.sqrt (2 * pi * t_expiries) * t_spots * t_volatilities))
          else if greek = "theta" then
            let t_sqrt_var := t_volatilities * Real.sqrt t_expiries
            let d1 := (Real.log (t_forwards / t_strikes) + t_sqrt_var * t_sqrt_var / 2) / t_sqrt_var
            let d2 := d1 - t_sqrt_var
            Except.ok (-t_spots * t_volatilities * Real.exp (-(d1 ^ 2) / 2) /
                Real.sqrt (2 * pi * t_expiries)
              + t_cost_of_carries * t_strikes * Real.exp (-t_cost_of_carries * t_expiries) *
                normCdf (-d2))
          else if greek = "vega" then
            let t_sqrt_var := t_volatilities * Real.sqrt t_expiries
            let d1 := (Real.log (t_forwards / t_strikes) + t_sqrt_var * t_sqrt_var / 2) / t_sqrt_var
            Except.ok (t_spots * Real.sqrt t_expiries * Real.exp (-(d1 ^ 2) / 2))
          else if greek = "rho" then
            let t_sqrt_var := t_volatilities * Real.sqrt t_expiries
            let d1 := (Real.log (t_forwards / t_strikes) + t_sqrt_var * t_sqrt_var / 2) / t_sqrt_var
            let d2 := d1 - t_sqrt_var
            Except.ok (-t_strikes * t_expiries * Real.exp (-t_cost_of_carries * t_expiries) *
              normCdf (-d2))
          else
            -- unreachable once the selector check passed: with the flag equal
            -- to False, Python would fall off the end and return None
            Except.error ("fell off function end: implicit None")
        | CallFlag.other =>
          Except.error ("Variable is_call_options can only be Booleans")

/-- Standard normal density as the spec writes it:
`φ(x) = exp(-x^2/2)/sqrt(2π)` (with the mathematical π).  Used only to compare
the source formula for vega against the formula the spec states. -/
def stdNormalPdfSpec (x : ℝ) : ℝ :=
  Real.exp (-(x ^ 2) / 2) / Real.sqrt (2 * Real.pi)

/-- C2: the claim says the put price is the canonical discount factor times
`undiscounted_call - (forward - strike)` for every valid input, including
those where `discount_factors` is not supplied.  The code instead multiplies
by the raw `discount_factors` argument, which is `None` at this valid input
(rate supplied, factor derived), raising `TypeError` instead of returning a
batch. -/
theorem C2_bug :
    get_vanilla_prices 100 (1/5) 1 (some 100) none (some (1/20)) none none none
        CallFlag.pyFalse
      = Except.error ("TypeError: unsupported operand type for *: NoneType and Tensor") := rfl

/-- C4: the claim says supplying `continuous_dividends` (without
`cost_of_carries`) resolves cost-of-carry to `rate - dividend` and completes
normally in both functions.  The code only assigns `t_continuous_dividends`
when the argument is absent, so both functions raise `UnboundLocalError` at
this valid input. -/
theorem C4_bug :
    get_vanilla_prices 100 (1/5) 1 (some 100) none (some (1/50)) (some (1/100)) none none
        CallFlag.pyTrue
      = Except.error
          ("UnboundLocalError: local variable t_continuous_dividends referenced before assignment")
    ∧ get_vanilla_greeks 100 (1/5) 1 "delta" (some 100) none (some (1/50)) (some (1/100))
        none none CallFlag.pyTrue
      = Except.error
          ("UnboundLocalError: local variable t_continuous_dividends referenced before assignment") :=
  ⟨rfl, rfl⟩

/-- C5: the claim says both functions derive
`spot = forward * exp(-cost_of_carry * expiry)` when `forwards` is supplied
and complete normally.  In `get_vanilla_prices` the derivation line discards
its result and reads the unbound local `t_spots`, so the whole call raises
`UnboundLocalError`; `get_vanilla_greeks` (whose derivation line is correct)
does complete on the same input. -/
theorem C5_bug :
    get_vanilla_prices 100 (1/5) 1 none (some 105) none none none none CallFlag.pyTrue
      = Except.error ("UnboundLocalError: local variable t_spots referenced before assignment")
    ∧ ∃ v, get_vanilla_greeks 100 (1/5) 1 "delta" none (some 105) none none none none
        CallFlag.pyTrue = Except.ok v :=
  ⟨rfl, ⟨_, rfl⟩⟩

/-- C1 counterexample: a batch that is valid in the claim's sense (spots
supplied, strike and spot positive, positive total volatility, calls
requested, all exclusivity rules respected) on which `get_vanilla_prices`
raises instead of returning the Black-Scholes call formula, because
`continuous_dividends` is supplied. -/
theorem C1_counterexample :
    get_vanilla_prices 100 (1/5) 1 (some 100) none none (some (1/50)) none none
        CallFlag.pyTrue
      = Except.error
          ("UnboundLocalError: local variable t_continuous_dividends referenced before assignment") :=
  rfl

/-- C3 counterexample: a valid parameter set (spots and a discount rate
supplied) on which the put side of the parity identity does not exist: the
put branch multiplies by the raw `discount_factors` argument, which is `None`
here, so no put price is returned and
`call_price - put_price = discount_factor * (forward - strike)` fails. -/
theorem C3_counterexample :
    get_vanilla_prices 50 (3/10) 2 (some 55) none (some (1/100)) none none none
        CallFlag.pyFalse
      = Except.error ("TypeError: unsupported operand type for *: NoneType and Tensor") := rfl

/-- C9 counterexample: `get_vanilla_prices` with an `is_call_options` value
that is neither `True` nor `False` does not raise; it silently takes the put
branch and returns a result batch. -/
theorem C9_counterexample :
    ∃ v, get_vanilla_prices 100 (1/5) 1 (some 100) none none none none (some (9/10))
        CallFlag.other = Except.ok v :=
  ⟨_, rfl⟩

/-- C10 counterexample: all the claim's preconditions hold (valid greek
selector, boolean flag, every exclusivity rule respected), yet evaluation
does not reach a greek return statement: supplying `continuous_dividends`
makes the normalizer raise `UnboundLocalError` first. -/
theorem C10_counterexample :
    get_vanilla_greeks 100 (1/5) 1 "delta" (some 100) none none (some (3/100)) none none
        CallFlag.pyTrue
      = Except.error
          ("UnboundLocalError: local variable t_continuous_dividends referenced before assignment") :=
  rfl

/-- C1 (amended): for a batch with spots supplied, positive strike, spot and
total volatility, all exclusivity rules respected, `continuous_dividends` not
supplied, and calls requested, `get_vanilla_prices` returns
`discount_factor * (forward * Φ(d1) - strike * Φ(d2))` with the canonical
quantities of the spec (rate from factor or zero, carry defaulting to the
rate, forward derived from spot, `d1 = (ln(forward/strike) + sqrt_var^2/2) /
sqrt_var`, `d2 = d1 - sqrt_var`). -/
theorem C1_amended (K V T s : ℝ) (dr cc dfac : Option ℝ)
    (hx : ¬ (dr.isSome ∧ dfac.isSome))
    (_hK : 0 < K) (_hs : 0 < s) (_hsv : 0 < V * Real.sqrt T) :
    get_vanilla_prices K V T (some s) none dr none cc dfac CallFlag.pyTrue
      = Except.ok
          (let discount_rate :=
             match dr, dfac with
             | some r, _ => r
             | none, some f => -Real.log f / T
             | none, none => (0 : ℝ)
           let cost_of_carry := cc.getD discount_rate
           let discount_factor := dfac.getD (Real.exp (-discount_rate * T))
           let forward := s * Real.exp (cost_of_carry * T)
           let sqrt_var := V * Real.sqrt T
           let d1 := (Real.log (forward / K) + sqrt_var ^ 2 / 2) / sqrt_var
           let d2 := d1 - sqrt_var
           discount_factor * (forward * normCdf d1 - K * normCdf d2)) := by
  cases dr with
  | some r0 =>
    cases dfac with
    | some f1 => exact absurd ⟨rfl, rfl⟩ hx
    | none =>
      cases cc <;>
        simp [get_vanilla_prices, pow_two, sub_zero, Option.getD_some, Option.getD_none]
  | none =>
    cases dfac with
    | some f1 =>
      cases cc <;>
        simp [get_vanilla_prices, pow_two, sub_zero, Option.getD_some, Option.getD_none]
    | none =>
      cases cc <;>
        simp [get_vanilla_prices, pow_two, sub_zero, Option.getD_some, Option.getD_none]

/-- Witness for C1: the amended theorem applied at a concrete valid input
(at-the-money call, zero rates). -/
theorem C1_witness :
    get_vanilla_prices 100 (1/5) 1 (some 100) none none none none none CallFlag.pyTrue
      = Except.ok
          (let discount_rate : ℝ := 0
           let cost_of_carry := (none : Option ℝ).getD discount_rate
           let discount_factor := (none : Option ℝ).getD (Real.exp (-discount_rate * 1))
           let forward := 100 * Real.exp (cost_of_carry * 1)
           let sqrt_var := 1/5 * Real.sqrt 1
           let d1 := (Real.log (forward / 100) + sqrt_var ^ 2 / 2) / sqrt_var
           let d2 := d1 - sqrt_var
           discount_factor * (forward * normCdf d1 - 100 * normCdf d2)) :=
  C1_amended 100 (1/5) 1 100 none none none (by simp) (by norm_num) (by norm_num)
    (by rw [Real.sqrt_one]; norm_num)

/-- C3 (amended): put-call parity
`call_price - put_price = discount_factor * (forward - strike)` holds per
element for the parameter sets on which the code produces both prices: spots
supplied, `discount_factors` supplied, `continuous_dividends` not supplied. -/
theorem C3_amended (K V T s f0 : ℝ) (cc : Option ℝ) :
    ∃ c p,
      get_vanilla_prices K V T (some s) none none none cc (some f0) CallFlag.pyTrue
        = Except.ok c
      ∧ get_vanilla_prices K V T (some s) none none none cc (some f0) CallFlag.pyFalse
        = Except.ok p
      ∧ c - p = f0 * (s * Real.exp ((cc.getD (-Real.log f0 / T)) * T) - K) := by
  cases cc with
  | none =>
    refine ⟨_, _, rfl, rfl, ?_⟩
    simp only [Option.getD_none, sub_zero]
    ring
  | some c0 =>
    refine ⟨_, _, rfl, rfl, ?_⟩
    simp only [Option.getD_some]
    ring

/-- C6: the claim (and the spec table) say vega is
`spot * sqrt(expiry) * φ(d1)` with `φ` the standard normal density.  The code
computes `spot * sqrt(expiry) * exp(-d1^2/2)`, forgetting the `1/sqrt(2π)`
normalization it does apply in gamma and theta: at the concrete input below
(`d1 = 1/10`) the returned value is `100 * exp(-1/200)`, which differs from
the spec value `100 * sqrt(1) * φ(1/10)`. -/
theorem C6_bug :
    get_vanilla_greeks 100 (1/5) 1 "vega" (some 100) none none none none none
        CallFlag.pyTrue
      = Except.ok (100 * Real.exp (-(1/200 : ℝ)))
    ∧ 100 * Real.exp (-(1/200 : ℝ)) ≠ 100 * Real.sqrt 1 * stdNormalPdfSpec (1/10) := by
  constructor
  · have hd : ¬ (("vega" : String) = "delta") := by decide
    have hgm : ¬ (("vega" : String) = "gamma") := by decide
    have hth : ¬ (("vega" : String) = "theta") := by decide
    norm_num [get_vanilla_greeks, hd, hgm, hth, Real.sqrt_one, Real.exp_zero, Real.log_one]
  · rw [Real.sqrt_one, mul_one]
    unfold stdNormalPdfSpec
    intro h
    have h100 : (100 : ℝ) ≠ 0 := by norm_num
    have harg : -((1/10 : ℝ) ^ 2) / 2 = -(1/200 : ℝ) := by norm_num
    rw [harg] at h
    have hE : Real.exp (-(1/200 : ℝ))
        = Real.exp (-(1/200 : ℝ)) / Real.sqrt (2 * Real.pi) :=
      mul_left_cancel₀ h100 h
    have h2pi : (1 : ℝ) < 2 * Real.pi := by
      have := Real.pi_gt_three
      linarith
    have hsq : (1 : ℝ) < Real.sqrt (2 * Real.pi) := by
      rw [show (1 : ℝ) = Real.sqrt 1 from (Real.sqrt_one).symm]
      exact Real.sqrt_lt_sqrt (by norm_num) h2pi
    have hlt : Real.exp (-(1/200 : ℝ)) / Real.sqrt (2 * Real.pi)
        < Real.exp (-(1/200 : ℝ)) :=
      div_lt_self (Real.exp_pos _) hsq
    rw [← hE] at hlt
    exact lt_irrefl _ hlt

/-- C7: whenever one of the exclusivity rules is violated (spots and forwards
both supplied or both absent, both discount variants supplied, or both
dividend variants supplied), both functions fail with a `ValueError` and
produce no result batch: the checks run before any numeric work. -/
theorem C7_exclusivity (K V T : ℝ) (g : String)
    (sp fw dr cd cc dfac : Option ℝ) (flag : CallFlag)
    (h : sp.isNone = fw.isNone ∨ (dr.isSome ∧ dfac.isSome) ∨ (cd.isSome ∧ cc.isSome)) :
    (∃ e, get_vanilla_prices K V T sp fw dr cd cc dfac flag = Except.error e)
    ∧ (∃ e, get_vanilla_greeks K V T g sp fw dr cd cc dfac flag = Except.error e) := by
  constructor
  · unfold get_vanilla_prices
    by_cases h1 : sp.isNone = fw.isNone
    · rw [if_pos h1]; exact ⟨_, rfl⟩
    · rw [if_neg h1]
      by_cases h2 : dr.isSome ∧ dfac.isSome
      · rw [if_pos h2]; exact ⟨_, rfl⟩
      · rw [if_neg h2]
        by_cases h3 : cd.isSome ∧ cc.isSome
        · rw [if_pos h3]; exact ⟨_, rfl⟩
        · exact absurd h (by tauto)
  · unfold get_vanilla_greeks
    by_cases hg : g ∉ (["delta", "gamma", "theta", "vega", "rho"] : List String)
    · rw [if_pos hg]; exact ⟨_, rfl⟩
    · rw [if_neg hg]
      by_cases h1 : sp.isNone = fw.isNone
      · rw [if_pos h1]; exact ⟨_, rfl⟩
      · rw [if_neg h1]
        by_cases h2 : dr.isSome ∧ dfac.isSome
        · rw [if_pos h2]; exact ⟨_, rfl⟩
        · rw [if_neg h2]
          by_cases h3 : cd.isSome ∧ cc.isSome
          · rw [if_pos h3]; exact ⟨_, rfl⟩
          · exact absurd h (by tauto)

/-- Witness for C7: both functions reject an input supplying both spots and
forwards. -/
theorem C7_witness :
    (∃ e, get_vanilla_prices 100 (1/5) 1 (some 100) (some 105) none none none none
        CallFlag.pyTrue = Except.error e)
    ∧ (∃ e, get_vanilla_greeks 100 (1/5) 1 "delta" (some 100) (some 105) none none none
        none CallFlag.pyTrue = Except.error e) :=
  C7_exclusivity 100 (1/5) 1 "delta" (some 100) (some 105) none none none none
    CallFlag.pyTrue (Or.inl rfl)

/-- C8: for every parameter set, gamma and vega from `get_vanilla_greeks` are
identical for calls and puts (the two branches compute the same formula; on
inputs where the call errors, the put errors identically). -/
theorem C8_gamma_vega_parity (K V T : ℝ) (sp fw dr cd cc dfac : Option ℝ) :
    get_vanilla_greeks K V T "gamma" sp fw dr cd cc dfac CallFlag.pyTrue
      = get_vanilla_greeks K V T "gamma" sp fw dr cd cc dfac CallFlag.pyFalse
    ∧ get_vanilla_greeks K V T "vega" sp fw dr cd cc dfac CallFlag.pyTrue
      = get_vanilla_greeks K V T "vega" sp fw dr cd cc dfac CallFlag.pyFalse :=
  ⟨rfl, rfl⟩

/-- C9 (amended): `get_vanilla_greeks` never returns a result batch when
`is_call_options` is neither `True` nor `False` (every path errors), but
`get_vanilla_prices` performs no such validation: any non-`True` flag behaves
exactly like `False` and returns the put branch. -/
theorem C9_amended :
    (∀ (K V T : ℝ) (g : String) (sp fw dr cd cc dfac : Option ℝ),
        ∃ e, get_vanilla_greeks K V T g sp fw dr cd cc dfac CallFlag.other
          = Except.error e)
    ∧ (∀ (K V T : ℝ) (sp fw dr cd cc dfac : Option ℝ),
        get_vanilla_prices K V T sp fw dr cd cc dfac CallFlag.other
          = get_vanilla_prices K V T sp fw dr cd cc dfac CallFlag.pyFalse) := by
  constructor
  · intro K V T g sp fw dr cd cc dfac
    unfold get_vanilla_greeks
    by_cases hg : g ∉ (["delta", "gamma", "theta", "vega", "rho"] : List String)
    · rw [if_pos hg]; exact ⟨_, rfl⟩
    · rw [if_neg hg]
      by_cases h1 : sp.isNone = fw.isNone
      · rw [if_pos h1]; exact ⟨_, rfl⟩
      · rw [if_neg h1]
        by_cases h2 : dr.isSome ∧ dfac.isSome
        · rw [if_pos h2]; exact ⟨_, rfl⟩
        · rw [if_neg h2]
          by_cases h3 : cd.isSome ∧ cc.isSome
          · rw [if_pos h3]; exact ⟨_, rfl⟩
          · rw [if_neg h3]
            cases cd <;> cases cc <;> cases fw <;> cases sp <;> exact ⟨_, rfl⟩
  · intro K V T sp fw dr cd cc dfac
    rfl

set_option maxHeartbeats 1600000 in
/-- C10 (amended): with a valid greek selector, a boolean flag, the
exclusivity checks passing, and additionally `continuous_dividends` not
supplied (otherwise the normalizer raises `UnboundLocalError` before any
greek return), `get_vanilla_greeks` always reaches one of the greek return
statements; in particular the trailing `Variable is_call_options can only be
Booleans` branch is never taken. -/
theorem C10_amended (K V T : ℝ) (g : String) (sp fw dr cc dfac : Option ℝ)
    (flag : CallFlag)
    (hg : g ∈ (["delta", "gamma", "theta", "vega", "rho"] : List String))
    (hflag : flag = CallFlag.pyTrue ∨ flag = CallFlag.pyFalse)
    (hsf : ¬ sp.isNone = fw.isNone)
    (hrd : ¬ (dr.isSome ∧ dfac.isSome)) :
    ∃ v, get_vanilla_greeks K V T g sp fw dr none cc dfac flag = Except.ok v := by
  simp only [List.mem_cons, List.not_mem_nil, or_false] at hg
  rcases hg with rfl | rfl | rfl | rfl | rfl <;>
  rcases hflag with rfl | rfl <;>
  cases sp <;> cases fw <;> cases dr <;> cases dfac <;> cases cc <;>
    first
    | exact ⟨_, rfl⟩
    | exact absurd rfl hsf
    | simp at hrd

/-- Witness for C10: the amended theorem applied at a concrete valid call. -/
theorem C10_witness :
    ∃ v, get_vanilla_greeks 100 (1/5) 1 "vega" (some 100) none none none none none
        CallFlag.pyTrue = Except.ok v :=
  C10_amended 100 (1/5) 1 "vega" (some 100) none none none none CallFlag.pyTrue
    (by simp) (Or.inl rfl) (by simp) (by simp)

end TorchQF
